import Mathlib

/-!
Shallow embedding of the Neuro_Zen domain schema
(`src/neurozen/core/models.py`).

The repository declares persistent record types (Category, Tag, Task, Note,
PomodoroSession, Reward, DailyQuote, BreathingExercise, MoodEntry) with
field constraints (max lengths, enumerated choices, numeric validators),
defaults, uniqueness constraints (`unique_together`, `unique=True`),
referential delete policies (`on_delete=CASCADE` / `SET_NULL`), and a
default ordering (`MoodEntry.Meta.ordering = ['-date']`).

We embed each record type as a Lean structure, the declared validation as a
function returning the list of offending field names (the framework's
ValidationError carries a dict keyed by field name), creation as a function
on an explicit store that applies declared defaults, checks validation and
then the declared uniqueness constraints atomically, and deletion as the
declared cascade / nullify policies.  Dates and timestamps are modelled as
natural numbers; decimal sleep hours are modelled in tenths.
-/

/-- Record type `Category` (models.py lines 6-28).  `user` is the owning
account's id; `created_at` is the auto-set creation timestamp. -/
structure CategoryRec where
  id : Nat
  user : Nat
  name : String
  color : String
  description : String
  icon : String
  created_at : Nat
deriving Repr, DecidableEq

/-- Record type `Tag` (models.py lines 30-49). -/
structure TagRec where
  id : Nat
  user : Nat
  name : String
  color : String
  created_at : Nat
deriving Repr, DecidableEq

/-- Record type `Task` (models.py lines 51-81).  `category` and `parent_task`
are optional foreign keys stored as ids; `tags` is the many-to-many set. -/
structure TaskRec where
  id : Nat
  user : Nat
  title : String
  description : String
  priority : String
  status : String
  due_date : Option Nat
  created_at : Nat
  updated_at : Nat
  estimated_time : Option Int
  is_break_task : Bool
  category : Option Nat
  tags : List Nat
  recurring : Bool
  recurrence_pattern : String
  parent_task : Option Nat
deriving Repr, DecidableEq

/-- Record type `Note` (models.py lines 83-93). -/
structure NoteRec where
  id : Nat
  user : Nat
  title : String
  content : String
  created_at : Nat
  updated_at : Nat
  is_pinned : Bool
  color : String
deriving Repr, DecidableEq

/-- Record type `PomodoroSession` (models.py lines 95-104). -/
structure PomodoroRec where
  id : Nat
  user : Nat
  start_time : Nat
  end_time : Option Nat
  duration : Int
  is_completed : Bool
  task : Option Nat
deriving Repr, DecidableEq

/-- Record type `Reward` (models.py lines 106-115). -/
structure RewardRec where
  id : Nat
  user : Nat
  name : String
  description : String
  points_required : Int
  is_claimed : Bool
  created_at : Nat
deriving Repr, DecidableEq

/-- Record type `DailyQuote` (models.py lines 117-124); not owned by an account,
and its `date` field is declared `unique=True`. -/
structure QuoteRec where
  id : Nat
  quote : String
  author : String
  date : Nat
  is_active : Bool
deriving Repr, DecidableEq

/-- Record type `BreathingExercise` (models.py lines 126-142); not owned by an
account. -/
structure BreathingRec where
  id : Nat
  name : String
  description : String
  duration : Int
  steps : String
  difficulty : String
  image_url : String
deriving Repr, DecidableEq

/-- Record type `MoodEntry` (models.py lines 144-178).  `sleep_hours` is a
decimal with one fractional digit, stored here in tenths. -/
structure MoodEntryRec where
  id : Nat
  user : Nat
  date : Nat
  mood : String
  notes : String
  energy_level : Int
  sleep_hours : Option Int
  activities : String
deriving Repr, DecidableEq

/-- Choices list `Category.COLOR_CHOICES` (models.py lines 7-14): stored code paired
with its human-readable label. -/
def COLOR_CHOICES : List (String × String) :=
  [("#FFF5E6", "Warm White - Neutral"),
   ("#F5F5F5", "Off White - Work"),
   ("#FFE4E1", "Misty Rose - Health"),
   ("#FFDAB9", "Peach - Learning"),
   ("#F44336", "Red - Urgent"),
   ("#E0E0E0", "Gray - Other")]

/-- Choices list `Tag.TAG_COLOR_CHOICES` (models.py lines 31-38). -/
def TAG_COLOR_CHOICES : List (String × String) :=
  [("#FFF5E6", "Warm White"),
   ("#F5F5F5", "Off White"),
   ("#FFE4E1", "Misty Rose"),
   ("#FFDAB9", "Peach"),
   ("#E0E0E0", "Gray"),
   ("#F44336", "Red")]

/-- Choices list `Task.PRIORITY_CHOICES` (models.py lines 52-56). -/
def PRIORITY_CHOICES : List (String × String) :=
  [("L", "Low"), ("M", "Medium"), ("H", "High")]

/-- Choices list `Task.STATUS_CHOICES` (models.py lines 58-62). -/
def STATUS_CHOICES : List (String × String) :=
  [("P", "Pending"), ("IP", "In Progress"), ("C", "Completed")]

/-- Choices list `BreathingExercise.DIFFICULTY_CHOICES` (models.py lines 127-131). -/
def DIFFICULTY_CHOICES : List (String × String) :=
  [("E", "Easy"), ("M", "Medium"), ("H", "Hard")]

/-- Choices list `MoodEntry.MOOD_CHOICES` (models.py lines 145-151). -/
def MOOD_CHOICES : List (String × String) :=
  [("1", "😊 Very Happy"),
   ("2", "🙂 Happy"),
   ("3", "😐 Neutral"),
   ("4", "😕 Sad"),
   ("5", "😢 Very Sad")]

/-- Whether `v` is one of the stored codes of a choices list: the
framework validates a choices field by membership of the stored code. -/
def isChoice (choices : List (String × String)) (v : String) : Bool :=
  choices.any (fun c => c.1 == v)

/-- Display-label lookup for a choices list (`get_FOO_display`). -/
def choiceLabel (choices : List (String × String)) (v : String) : Option String :=
  (choices.find? (fun c => c.1 == v)).map (fun c => c.2)

/-- The persistent store: one table per entity, a fresh-id counter and the
current clock used for auto-set timestamp/date fields. -/
structure Store where
  nextId : Nat
  now : Nat
  categories : List CategoryRec
  tags : List TagRec
  tasks : List TaskRec
  notes : List NoteRec
  pomodoros : List PomodoroRec
  rewards : List RewardRec
  quotes : List QuoteRec
  breathings : List BreathingRec
  moodEntries : List MoodEntryRec
deriving Repr, DecidableEq

/-- A write either fails with a ValidationError identifying the offending
fields, fails with a uniqueness violation, or succeeds. -/
inductive WriteError where
  | validation (fields : List String)
  | uniqueness
deriving Repr, DecidableEq

/-! ### Declarative validation

Each `validateX` returns the names of the fields whose values violate a
declared constraint, in field-declaration order: `max_length` on character
fields, membership in the declared `choices` codes, the explicit
`MinValueValidator(1)` / `MaxValueValidator(10)` on
`MoodEntry.energy_level`, and the `max_digits=4, decimal_places=1` bound on
`MoodEntry.sleep_hours` (a magnitude below 1000.0, i.e. 10000 tenths).
A write is valid exactly when the list is empty. -/

/-- Validation for `Category`: `name` has `max_length=100`, `color` has
`max_length=7` and must be one of `COLOR_CHOICES`, `icon` has
`max_length=50`. -/
def validateCategory (c : CategoryRec) : List String :=
  (if c.name.length ≤ 100 then [] else ["name"]) ++
  (if c.color.length ≤ 7 ∧ isChoice COLOR_CHOICES c.color = true then [] else ["color"]) ++
  (if c.icon.length ≤ 50 then [] else ["icon"])

/-- Validation for `Tag`: `name` has `max_length=50`, `color` has
`max_length=7` and must be one of `TAG_COLOR_CHOICES`. -/
def validateTag (t : TagRec) : List String :=
  (if t.name.length ≤ 50 then [] else ["name"]) ++
  (if t.color.length ≤ 7 ∧ isChoice TAG_COLOR_CHOICES t.color = true then [] else ["color"])

/-- Validation for `Task`: `title` has `max_length=200`; `priority` has
`max_length=1` and must be one of `PRIORITY_CHOICES`; `status` has
`max_length=2` and must be one of `STATUS_CHOICES`; `recurrence_pattern`
has `max_length=100`. -/
def validateTask (t : TaskRec) : List String :=
  (if t.title.length ≤ 200 then [] else ["title"]) ++
  (if t.priority.length ≤ 1 ∧ isChoice PRIORITY_CHOICES t.priority = true then [] else ["priority"]) ++
  (if t.status.length ≤ 2 ∧ isChoice STATUS_CHOICES t.status = true then [] else ["status"]) ++
  (if t.recurrence_pattern.length ≤ 100 then [] else ["recurrence_pattern"])

/-- Validation for `Note`: `title` has `max_length=200`; `color` has
`max_length=7` and — unlike the Category/Tag colors — no `choices`
restriction. -/
def validateNote (n : NoteRec) : List String :=
  (if n.title.length ≤ 200 then [] else ["title"]) ++
  (if n.color.length ≤ 7 then [] else ["color"])

/-- Validation for `PomodoroSession`: no field carries a declared length,
choices or range constraint. -/
def validatePomodoro (_p : PomodoroRec) : List String := []

/-- Validation for `Reward`: `name` has `max_length=200`. -/
def validateReward (r : RewardRec) : List String :=
  (if r.name.length ≤ 200 then [] else ["name"])

/-- Validation for `DailyQuote`: `author` has `max_length=200`. -/
def validateQuote (q : QuoteRec) : List String :=
  (if q.author.length ≤ 200 then [] else ["author"])

/-- Validation for `BreathingExercise`: `name` has `max_length=200`;
`difficulty` has `max_length=1` and must be one of `DIFFICULTY_CHOICES`;
`image_url` is a `URLField` with the default `max_length=200` (its
URL-format check lives in the framework, outside this schema). -/
def validateBreathing (b : BreathingRec) : List String :=
  (if b.name.length ≤ 200 then [] else ["name"]) ++
  (if b.difficulty.length ≤ 1 ∧ isChoice DIFFICULTY_CHOICES b.difficulty = true then [] else ["difficulty"]) ++
  (if b.image_url.length ≤ 200 then [] else ["image_url"])

/-- Validation for `MoodEntry`: `mood` has `max_length=1` and must be one
of `MOOD_CHOICES`; `energy_level` carries `MinValueValidator(1)` and
`MaxValueValidator(10)`; `sleep_hours` (when present, in tenths) must fit
`max_digits=4, decimal_places=1`. -/
def validateMoodEntry (m : MoodEntryRec) : List String :=
  (if m.mood.length ≤ 1 ∧ isChoice MOOD_CHOICES m.mood = true then [] else ["mood"]) ++
  (if 1 ≤ m.energy_level ∧ m.energy_level ≤ 10 then [] else ["energy_level"]) ++
  (match m.sleep_hours with
   | none => []
   | some v => if -10000 < v ∧ v < 10000 then [] else ["sleep_hours"])

/-! ### Create arguments

One `Args` structure per entity: the caller-supplied field values of a
create.  A field with a declared default is an `Option`, `none` meaning the
caller omitted it; auto-set fields (`id`, `created_at`, `updated_at`,
`start_time`) are never caller-supplied. -/

/-- Caller-supplied fields of a `Category` create; `color` defaults to
`'#FFF5E6'`. -/
structure CategoryArgs where
  user : Nat
  name : String
  color : Option String
  description : String
  icon : String
deriving Repr, DecidableEq

/-- Caller-supplied fields of a `Tag` create; `color` defaults to
`'#FFF5E6'`. -/
structure TagArgs where
  user : Nat
  name : String
  color : Option String
deriving Repr, DecidableEq

/-- Caller-supplied fields of a `Task` create; defaults: `priority='M'`,
`status='P'`, `is_break_task=False`, `recurring=False`. -/
structure TaskArgs where
  user : Nat
  title : String
  description : String
  priority : Option String
  status : Option String
  due_date : Option Nat
  estimated_time : Option Int
  is_break_task : Option Bool
  category : Option Nat
  tags : List Nat
  recurring : Option Bool
  recurrence_pattern : String
  parent_task : Option Nat
deriving Repr, DecidableEq

/-- Caller-supplied fields of a `Note` create; defaults:
`is_pinned=False`, `color='#FFFFFF'`. -/
structure NoteArgs where
  user : Nat
  title : String
  content : String
  is_pinned : Option Bool
  color : Option String
deriving Repr, DecidableEq

/-- Caller-supplied fields of a `PomodoroSession` create; defaults:
`duration=25`, `is_completed=False`. -/
structure PomodoroArgs where
  user : Nat
  end_time : Option Nat
  duration : Option Int
  is_completed : Option Bool
  task : Option Nat
deriving Repr, DecidableEq

/-- Caller-supplied fields of a `Reward` create; defaults:
`points_required=0`, `is_claimed=False`. -/
structure RewardArgs where
  user : Nat
  name : String
  description : String
  points_required : Option Int
  is_claimed : Option Bool
deriving Repr, DecidableEq

/-- Caller-supplied fields of a `DailyQuote` create; default:
`is_active=True`. -/
structure QuoteArgs where
  quote : String
  author : String
  date : Nat
  is_active : Option Bool
deriving Repr, DecidableEq

/-- Caller-supplied fields of a `BreathingExercise` create; default:
`difficulty='E'`. -/
structure BreathingArgs where
  name : String
  description : String
  duration : Int
  steps : String
  difficulty : Option String
  image_url : String
deriving Repr, DecidableEq

/-- Caller-supplied fields of a `MoodEntry` create; `date` defaults to the
current date (`default=timezone.now`); `mood` and `energy_level` have no
default and are always caller-supplied. -/
structure MoodEntryArgs where
  user : Nat
  date : Option Nat
  mood : String
  notes : String
  energy_level : Int
  sleep_hours : Option Int
  activities : String
deriving Repr, DecidableEq

/-! ### Building records and creating them in the store

`buildX s a` materialises the record a create would store: the fresh id,
the auto-set timestamps taken from the store clock, caller-supplied values,
and declared defaults for omitted fields.  `createX` validates the record,
then checks the declared uniqueness constraints, and only on success
returns the extended store together with the new id — a failing write
returns an error and produces no store, so it can never overwrite. -/

/-- Record stored by a `Category` create. -/
def buildCategory (s : Store) (a : CategoryArgs) : CategoryRec :=
  { id := s.nextId, user := a.user, name := a.name,
    color := a.color.getD "#FFF5E6", description := a.description,
    icon := a.icon, created_at := s.now }

/-- Constraint `unique_together = ['user', 'name']` on `Category`. -/
def categoryConflict (s : Store) (c : CategoryRec) : Bool :=
  s.categories.any (fun c0 => c0.user == c.user && c0.name == c.name)

/-- Create a `Category`. -/
def createCategory (s : Store) (a : CategoryArgs) : Except WriteError (Store × Nat) :=
  let c := buildCategory s a
  if validateCategory c = [] then
    if categoryConflict s c then .error .uniqueness
    else .ok ({ s with nextId := s.nextId + 1, categories := c :: s.categories }, c.id)
  else .error (.validation (validateCategory c))

/-- Record stored by a `Tag` create. -/
def buildTag (s : Store) (a : TagArgs) : TagRec :=
  { id := s.nextId, user := a.user, name := a.name,
    color := a.color.getD "#FFF5E6", created_at := s.now }

/-- Constraint `unique_together = ['user', 'name']` on `Tag`. -/
def tagConflict (s : Store) (t : TagRec) : Bool :=
  s.tags.any (fun t0 => t0.user == t.user && t0.name == t.name)

/-- Create a `Tag`. -/
def createTag (s : Store) (a : TagArgs) : Except WriteError (Store × Nat) :=
  let t := buildTag s a
  if validateTag t = [] then
    if tagConflict s t then .error .uniqueness
    else .ok ({ s with nextId := s.nextId + 1, tags := t :: s.tags }, t.id)
  else .error (.validation (validateTag t))

/-- Record stored by a `Task` create. -/
def buildTask (s : Store) (a : TaskArgs) : TaskRec :=
  { id := s.nextId, user := a.user, title := a.title,
    description := a.description,
    priority := a.priority.getD "M", status := a.status.getD "P",
    due_date := a.due_date, created_at := s.now, updated_at := s.now,
    estimated_time := a.estimated_time,
    is_break_task := a.is_break_task.getD false,
    category := a.category, tags := a.tags,
    recurring := a.recurring.getD false,
    recurrence_pattern := a.recurrence_pattern,
    parent_task := a.parent_task }

/-- Create a `Task` (no declared uniqueness constraint). -/
def createTask (s : Store) (a : TaskArgs) : Except WriteError (Store × Nat) :=
  let t := buildTask s a
  if validateTask t = [] then
    .ok ({ s with nextId := s.nextId + 1, tasks := t :: s.tasks }, t.id)
  else .error (.validation (validateTask t))

/-- Record stored by a `Note` create. -/
def buildNote (s : Store) (a : NoteArgs) : NoteRec :=
  { id := s.nextId, user := a.user, title := a.title, content := a.content,
    created_at := s.now, updated_at := s.now,
    is_pinned := a.is_pinned.getD false, color := a.color.getD "#FFFFFF" }

/-- Create a `Note` (no declared uniqueness constraint). -/
def createNote (s : Store) (a : NoteArgs) : Except WriteError (Store × Nat) :=
  let n := buildNote s a
  if validateNote n = [] then
    .ok ({ s with nextId := s.nextId + 1, notes := n :: s.notes }, n.id)
  else .error (.validation (validateNote n))

/-- Record stored by a `PomodoroSession` create; `start_time` is
`auto_now_add`. -/
def buildPomodoro (s : Store) (a : PomodoroArgs) : PomodoroRec :=
  { id := s.nextId, user := a.user, start_time := s.now,
    end_time := a.end_time, duration := a.duration.getD 25,
    is_completed := a.is_completed.getD false, task := a.task }

/-- Create a `PomodoroSession` (no declared uniqueness constraint). -/
def createPomodoro (s : Store) (a : PomodoroArgs) : Except WriteError (Store × Nat) :=
  let p := buildPomodoro s a
  if validatePomodoro p = [] then
    .ok ({ s with nextId := s.nextId + 1, pomodoros := p :: s.pomodoros }, p.id)
  else .error (.validation (validatePomodoro p))

/-- Record stored by a `Reward` create. -/
def buildReward (s : Store) (a : RewardArgs) : RewardRec :=
  { id := s.nextId, user := a.user, name := a.name,
    description := a.description,
    points_required := a.points_required.getD 0,
    is_claimed := a.is_claimed.getD false, created_at := s.now }

/-- Create a `Reward` (no declared uniqueness constraint). -/
def createReward (s : Store) (a : RewardArgs) : Except WriteError (Store × Nat) :=
  let r := buildReward s a
  if validateReward r = [] then
    .ok ({ s with nextId := s.nextId + 1, rewards := r :: s.rewards }, r.id)
  else .error (.validation (validateReward r))

/-- Record stored by a `DailyQuote` create. -/
def buildQuote (s : Store) (a : QuoteArgs) : QuoteRec :=
  { id := s.nextId, quote := a.quote, author := a.author, date := a.date,
    is_active := a.is_active.getD true }

/-- Constraint `date = models.DateField(unique=True)` on `DailyQuote`. -/
def quoteConflict (s : Store) (q : QuoteRec) : Bool :=
  s.quotes.any (fun q0 => q0.date == q.date)

/-- Create a `DailyQuote`. -/
def createQuote (s : Store) (a : QuoteArgs) : Except WriteError (Store × Nat) :=
  let q := buildQuote s a
  if validateQuote q = [] then
    if quoteConflict s q then .error .uniqueness
    else .ok ({ s with nextId := s.nextId + 1, quotes := q :: s.quotes }, q.id)
  else .error (.validation (validateQuote q))

/-- Record stored by a `BreathingExercise` create. -/
def buildBreathing (s : Store) (a : BreathingArgs) : BreathingRec :=
  { id := s.nextId, name := a.name, description := a.description,
    duration := a.duration, steps := a.steps,
    difficulty := a.difficulty.getD "E", image_url := a.image_url }

/-- Create a `BreathingExercise` (no declared uniqueness constraint). -/
def createBreathing (s : Store) (a : BreathingArgs) : Except WriteError (Store × Nat) :=
  let b := buildBreathing s a
  if validateBreathing b = [] then
    .ok ({ s with nextId := s.nextId + 1, breathings := b :: s.breathings }, b.id)
  else .error (.validation (validateBreathing b))

/-- Record stored by a `MoodEntry` create; `date` defaults to the current
date. -/
def buildMoodEntry (s : Store) (a : MoodEntryArgs) : MoodEntryRec :=
  { id := s.nextId, user := a.user, date := a.date.getD s.now,
    mood := a.mood, notes := a.notes, energy_level := a.energy_level,
    sleep_hours := a.sleep_hours, activities := a.activities }

/-- Constraint `unique_together = ['user', 'date']` on `MoodEntry`. -/
def moodConflict (s : Store) (m : MoodEntryRec) : Bool :=
  s.moodEntries.any (fun m0 => m0.user == m.user && m0.date == m.date)

/-- Create a `MoodEntry`. -/
def createMoodEntry (s : Store) (a : MoodEntryArgs) : Except WriteError (Store × Nat) :=
  let m := buildMoodEntry s a
  if validateMoodEntry m = [] then
    if moodConflict s m then .error .uniqueness
    else .ok ({ s with nextId := s.nextId + 1, moodEntries := m :: s.moodEntries }, m.id)
  else .error (.validation (validateMoodEntry m))

/-! ### Reads by primary identifier -/

/-- Read a `Category` by id. -/
def getCategory (s : Store) (n : Nat) : Option CategoryRec :=
  s.categories.find? (fun c => c.id == n)

/-- Read a `Tag` by id. -/
def getTag (s : Store) (n : Nat) : Option TagRec :=
  s.tags.find? (fun t => t.id == n)

/-- Read a `Task` by id. -/
def getTask (s : Store) (n : Nat) : Option TaskRec :=
  s.tasks.find? (fun t => t.id == n)

/-- Read a `Note` by id. -/
def getNote (s : Store) (n : Nat) : Option NoteRec :=
  s.notes.find? (fun x => x.id == n)

/-- Read a `PomodoroSession` by id. -/
def getPomodoro (s : Store) (n : Nat) : Option PomodoroRec :=
  s.pomodoros.find? (fun p => p.id == n)

/-- Read a `Reward` by id. -/
def getReward (s : Store) (n : Nat) : Option RewardRec :=
  s.rewards.find? (fun r => r.id == n)

/-- Read a `DailyQuote` by id. -/
def getQuote (s : Store) (n : Nat) : Option QuoteRec :=
  s.quotes.find? (fun q => q.id == n)

/-- Read a `BreathingExercise` by id. -/
def getBreathing (s : Store) (n : Nat) : Option BreathingRec :=
  s.breathings.find? (fun b => b.id == n)

/-- Read a `MoodEntry` by id. -/
def getMoodEntry (s : Store) (n : Nat) : Option MoodEntryRec :=
  s.moodEntries.find? (fun m => m.id == n)

/-! ### Referential deletes

`Task.category` is `on_delete=SET_NULL`; `Task.parent_task` is
`on_delete=CASCADE` (self-referential, so the cascade is transitive);
`PomodoroSession.task` is `on_delete=SET_NULL`. -/

/-- Nullify a task's category reference when it points at the deleted
category (`on_delete=models.SET_NULL`). -/
def nullifyCategory (cid : Nat) (t : TaskRec) : TaskRec :=
  if t.category = some cid then { t with category := none } else t

/-- Delete a `Category`: remove it and clear (not delete) every `Task`
that referenced it. -/
def deleteCategory (s : Store) (cid : Nat) : Store :=
  { s with categories := s.categories.filter (fun c => !(c.id == cid)),
           tasks := s.tasks.map (nullifyCategory cid) }

/-- Whether a task's `parent_task` points into the already-doomed set. -/
def taskParentHit (acc : List Nat) (t : TaskRec) : Bool :=
  match t.parent_task with
  | some q => acc.contains q
  | none => false

/-- Transitive collection of the cascade: starting from `acc`, repeatedly
add every task whose parent is already doomed, until no task is added.
This is the framework's collector for a self-referential
`on_delete=CASCADE` chain. -/
def cascadeCollect (tasks : List TaskRec) (acc : List Nat) : List Nat :=
  if (tasks.filter (taskParentHit acc)).isEmpty then acc
  else cascadeCollect (tasks.filter (fun t => !(taskParentHit acc t)))
    (acc ++ (tasks.filter (taskParentHit acc)).map TaskRec.id)
termination_by tasks.length
decreasing_by
  rename_i hne
  have hpos : 0 < (tasks.filter (taskParentHit acc)).length := by
    rcases hf : tasks.filter (taskParentHit acc) with _ | ⟨t, ts⟩
    · exact absurd (by simp only [List.isEmpty_iff]; exact hf) hne
    · simp [hf]
  have hlen := List.length_eq_length_filter_add (l := tasks) (taskParentHit acc)
  omega

/-- Delete a `Task`: remove it and, transitively, every subtask
(`parent_task` is `on_delete=CASCADE`), and clear the `task` reference of
every `PomodoroSession` that pointed at a deleted task
(`on_delete=SET_NULL`). -/
def deleteTask (s : Store) (p : Nat) : Store :=
  let doomed := cascadeCollect s.tasks [p]
  { s with
    tasks := s.tasks.filter (fun t => !(doomed.contains t.id)),
    pomodoros := s.pomodoros.map (fun ps =>
      match ps.task with
      | some tid => if doomed.contains tid then { ps with task := none } else ps
      | none => ps) }

/-- Splitting off the tasks whose parent is already doomed strictly
shrinks the remainder, as long as at least one task was split off. -/
theorem filter_not_hit_length_lt (tasks : List TaskRec) (acc : List Nat)
    (hne : ¬(tasks.filter (taskParentHit acc)).isEmpty = true) :
    (tasks.filter (fun t => !(taskParentHit acc t))).length < tasks.length := by
  have hpos : 0 < (tasks.filter (taskParentHit acc)).length := by
    rcases hf : tasks.filter (taskParentHit acc) with _ | ⟨t, ts⟩
    · exact absurd (by simp only [List.isEmpty_iff]; exact hf) hne
    · simp [hf]
  have hlen := List.length_eq_length_filter_add (l := tasks) (taskParentHit acc)
  omega

/-- The doomed set only grows during cascade collection. -/
theorem cascadeCollect_subset (tasks : List TaskRec) (acc : List Nat) :
    acc ⊆ cascadeCollect tasks acc := by
  rw [cascadeCollect]
  split
  · exact fun x hx => hx
  · intro x hx
    exact cascadeCollect_subset _ _ (List.mem_append_left _ hx)
termination_by tasks.length
decreasing_by
  exact filter_not_hit_length_lt tasks acc (by assumption)

/-- The collected doomed set is closed under the parent relation: a task
whose parent is doomed is itself doomed. -/
theorem cascadeCollect_closed (tasks : List TaskRec) (acc : List Nat)
    (t : TaskRec) (ht : t ∈ tasks) (q : Nat) (hq : t.parent_task = some q)
    (hmem : q ∈ cascadeCollect tasks acc) :
    t.id ∈ cascadeCollect tasks acc := by
  rw [cascadeCollect] at hmem ⊢
  by_cases hemp : (tasks.filter (taskParentHit acc)).isEmpty = true
  · rw [if_pos hemp] at hmem ⊢
    exfalso
    have hhit : taskParentHit acc t = true := by
      simp only [taskParentHit, hq]
      exact List.elem_eq_true_of_mem hmem
    have : t ∈ tasks.filter (taskParentHit acc) := List.mem_filter.mpr ⟨ht, hhit⟩
    rcases hf : tasks.filter (taskParentHit acc) with _ | ⟨u, us⟩
    · rw [hf] at this; exact absurd this (List.not_mem_nil t)
    · rw [hf] at hemp; exact absurd hemp (by simp)
  · rw [if_neg hemp] at hmem ⊢
    by_cases hhit : taskParentHit acc t = true
    · apply cascadeCollect_subset
      apply List.mem_append_right
      exact List.mem_map.mpr ⟨t, List.mem_filter.mpr ⟨ht, hhit⟩, rfl⟩
    · exact cascadeCollect_closed _ _ t
        (List.mem_filter.mpr ⟨ht, by simp [hhit]⟩) q hq hmem
termination_by tasks.length
decreasing_by
  exact filter_not_hit_length_lt tasks acc (by assumption)

/-- Predicate `Reaches tasks p x`: a record with id `x` is connected to `p` by a
(possibly empty) chain of `parent_task` references among `tasks`. -/
inductive Reaches (tasks : List TaskRec) (p : Nat) : Nat → Prop
  | refl : Reaches tasks p p
  | step (t : TaskRec) (q : Nat) : t ∈ tasks → t.parent_task = some q →
      Reaches tasks p q → Reaches tasks p t.id

/-- Every id whose parent chain reaches `p` is collected by the cascade
starting from `p`. -/
theorem reaches_mem_cascadeCollect {tasks : List TaskRec} {p x : Nat}
    (h : Reaches tasks p x) : x ∈ cascadeCollect tasks [p] := by
  induction h with
  | refl => exact cascadeCollect_subset _ _ (List.mem_singleton_self p)
  | step t q ht hq _ ih => exact cascadeCollect_closed _ _ t ht q hq ih

/-! ### Default ordering of the MoodEntry collection

`MoodEntry.Meta.ordering = ['-date']`: reading an account's mood entries
without an explicit ordering yields them sorted by date descending. -/

/-- The default ordering relation on mood entries: `a` comes before `b`
when `a`'s date is the more recent (`'-date'`). -/
def moodOrder (a b : MoodEntryRec) : Prop := b.date ≤ a.date

instance : DecidableRel moodOrder := fun a b => Nat.decLe b.date a.date

instance : IsTotal MoodEntryRec moodOrder :=
  ⟨fun a b => (Nat.le_total b.date a.date).imp id id⟩

instance : IsTrans MoodEntryRec moodOrder :=
  ⟨fun _ _ _ h1 h2 => Nat.le_trans h2 h1⟩

/-- Read an account's `MoodEntry` collection with the model's default
ordering applied. -/
def getMoodEntries (s : Store) (u : Nat) : List MoodEntryRec :=
  List.insertionSort moodOrder (s.moodEntries.filter (fun m => m.user == u))

/-! ### Concrete fixtures used by witnesses -/

/-- The empty store. -/
def emptyStore : Store :=
  { nextId := 0, now := 0, categories := [], tags := [], tasks := [],
    notes := [], pomodoros := [], rewards := [], quotes := [],
    breathings := [], moodEntries := [] }

/-- A stored category of account 1 named "work". -/
def exCat : CategoryRec :=
  { id := 0, user := 1, name := "work", color := "#FFF5E6",
    description := "", icon := "", created_at := 0 }

/-- A stored tag of account 1 named "deep". -/
def exTag : TagRec :=
  { id := 1, user := 1, name := "deep", color := "#FFF5E6", created_at := 0 }

/-- A stored mood entry of account 1 on date 10. -/
def exMood : MoodEntryRec :=
  { id := 2, user := 1, date := 10, mood := "1", notes := "",
    energy_level := 5, sleep_hours := none, activities := "" }

/-- A stored daily quote for date 10. -/
def exQuote : QuoteRec :=
  { id := 3, quote := "q", author := "a", date := 10, is_active := true }

/-- A store already holding `exCat`, `exTag`, `exMood` and `exQuote`. -/
def s1 : Store :=
  { emptyStore with
    nextId := 4, categories := [exCat], tags := [exTag],
    moodEntries := [exMood], quotes := [exQuote] }

/-! ### Claims -/

/-- C1: for every pair of create operations, a second create of a
`Category` or `Tag` with the same (account, name), a second `MoodEntry`
with the same (account, date), or a second `DailyQuote` with an
already-used date fails with a uniqueness-violation error; since a failing
create returns no store, the existing record is not overwritten. -/
theorem C1_second_create_fails_uniqueness :
    (∀ (s : Store) (a : CategoryArgs),
      validateCategory (buildCategory s a) = [] →
      (∃ c ∈ s.categories, c.user = a.user ∧ c.name = a.name) →
      createCategory s a = .error .uniqueness) ∧
    (∀ (s : Store) (a : TagArgs),
      validateTag (buildTag s a) = [] →
      (∃ t ∈ s.tags, t.user = a.user ∧ t.name = a.name) →
      createTag s a = .error .uniqueness) ∧
    (∀ (s : Store) (a : MoodEntryArgs),
      validateMoodEntry (buildMoodEntry s a) = [] →
      (∃ m ∈ s.moodEntries, m.user = a.user ∧ m.date = (a.date).getD s.now) →
      createMoodEntry s a = .error .uniqueness) ∧
    (∀ (s : Store) (a : QuoteArgs),
      validateQuote (buildQuote s a) = [] →
      (∃ q ∈ s.quotes, q.date = a.date) →
      createQuote s a = .error .uniqueness) := by
  refine ⟨?_, ?_, ?_, ?_⟩
  · intro s a hval hconf
    rcases hconf with ⟨c, hc, hu, hn⟩
    have hcf : categoryConflict s (buildCategory s a) = true := by
      simp only [categoryConflict, List.any_eq_true]
      exact ⟨c, hc, by simp [buildCategory, hu, hn]⟩
    simp [createCategory, hval, hcf]
  · intro s a hval hconf
    rcases hconf with ⟨t, ht, hu, hn⟩
    have hcf : tagConflict s (buildTag s a) = true := by
      simp only [tagConflict, List.any_eq_true]
      exact ⟨t, ht, by simp [buildTag, hu, hn]⟩
    simp [createTag, hval, hcf]
  · intro s a hval hconf
    rcases hconf with ⟨m, hm, hu, hd⟩
    have hcf : moodConflict s (buildMoodEntry s a) = true := by
      simp only [moodConflict, List.any_eq_true]
      exact ⟨m, hm, by simp [buildMoodEntry, hu, hd]⟩
    simp [createMoodEntry, hval, hcf]
  · intro s a hval hconf
    rcases hconf with ⟨q, hq, hd⟩
    have hcf : quoteConflict s (buildQuote s a) = true := by
      simp only [quoteConflict, List.any_eq_true]
      exact ⟨q, hq, by simp [buildQuote, hd]⟩
    simp [createQuote, hval, hcf]

/-- Concrete instance of C1: against `s1`, a duplicate (account 1, "work")
category, a duplicate (account 1, "deep") tag, a duplicate (account 1,
date 10) mood entry and a duplicate date-10 quote all fail with a
uniqueness violation. -/
theorem C1_witness :
    createCategory s1 { user := 1, name := "work", color := none,
                        description := "", icon := "" } = .error .uniqueness ∧
    createTag s1 { user := 1, name := "deep", color := none } = .error .uniqueness ∧
    createMoodEntry s1 { user := 1, date := some 10, mood := "2", notes := "",
                         energy_level := 7, sleep_hours := none,
                         activities := "" } = .error .uniqueness ∧
    createQuote s1 { quote := "other", author := "b", date := 10,
                     is_active := none } = .error .uniqueness := by
  refine ⟨?_, ?_, ?_, ?_⟩
  · exact C1_second_create_fails_uniqueness.1 s1 _ (by decide)
      ⟨exCat, by simp [s1], by decide, by decide⟩
  · exact C1_second_create_fails_uniqueness.2.1 s1 _ (by decide)
      ⟨exTag, by simp [s1], by decide, by decide⟩
  · exact C1_second_create_fails_uniqueness.2.2.1 s1 _ (by decide)
      ⟨exMood, by simp [s1], by decide, by decide⟩
  · exact C1_second_create_fails_uniqueness.2.2.2 s1 _ (by decide)
      ⟨exQuote, by simp [s1], by decide⟩

/-- Mood-entry create arguments with an out-of-range energy level. -/
def badEnergyArgs : MoodEntryArgs :=
  { user := 1, date := some 0, mood := "3", notes := "",
    energy_level := 11, sleep_hours := none, activities := "" }

/-- C2: for every `MoodEntry` write, an `energy_level` outside the
inclusive range [1,10] is rejected with a ValidationError identifying the
`energy_level` field (in particular a create fails), and an in-range value
is never flagged on that field. -/
theorem C2_energy_level_range :
    (∀ m : MoodEntryRec, (m.energy_level < 1 ∨ 10 < m.energy_level) →
      "energy_level" ∈ validateMoodEntry m) ∧
    (∀ m : MoodEntryRec, 1 ≤ m.energy_level → m.energy_level ≤ 10 →
      "energy_level" ∉ validateMoodEntry m) ∧
    (∀ (s : Store) (a : MoodEntryArgs),
      (a.energy_level < 1 ∨ 10 < a.energy_level) →
      createMoodEntry s a =
        .error (.validation (validateMoodEntry (buildMoodEntry s a))) ∧
      "energy_level" ∈ validateMoodEntry (buildMoodEntry s a)) := by
  have hmem : ∀ m : MoodEntryRec, (m.energy_level < 1 ∨ 10 < m.energy_level) →
      "energy_level" ∈ validateMoodEntry m := by
    intro m h
    have hB : ¬(1 ≤ m.energy_level ∧ m.energy_level ≤ 10) := by omega
    simp [validateMoodEntry, if_neg hB]
  refine ⟨hmem, ?_, ?_⟩
  · intro m h1 h2 hin
    unfold validateMoodEntry at hin
    rw [if_pos (show 1 ≤ m.energy_level ∧ m.energy_level ≤ 10 from ⟨h1, h2⟩)] at hin
    split at hin <;> split at hin <;> simp_all
  · intro s a h
    have hcontains : "energy_level" ∈ validateMoodEntry (buildMoodEntry s a) := by
      apply hmem
      simpa [buildMoodEntry] using h
    have hne : ¬ validateMoodEntry (buildMoodEntry s a) = [] := by
      intro hnil
      rw [hnil] at hcontains
      exact absurd hcontains (List.not_mem_nil _)
    exact ⟨by simp [createMoodEntry, if_neg hne], hcontains⟩

/-- Concrete instance of C2: energy level 11 is flagged on
`energy_level` and its create fails; the in-range `exMood` (energy 5) is
not flagged. -/
theorem C2_witness :
    "energy_level" ∈ validateMoodEntry { exMood with energy_level := 11 } ∧
    "energy_level" ∉ validateMoodEntry exMood ∧
    createMoodEntry emptyStore badEnergyArgs =
      .error (.validation (validateMoodEntry (buildMoodEntry emptyStore badEnergyArgs))) := by
  refine ⟨?_, ?_, ?_⟩
  · exact C2_energy_level_range.1 _ (by decide)
  · exact C2_energy_level_range.2.1 exMood (by decide) (by decide)
  · exact (C2_energy_level_range.2.2 emptyStore badEnergyArgs (by decide)).1

/-- A stored task of account 1 referencing category `exCat` (id 0). -/
def exTask : TaskRec :=
  { id := 4, user := 1, title := "write", description := "",
    priority := "M", status := "P", due_date := none, created_at := 0,
    updated_at := 0, estimated_time := none, is_break_task := false,
    category := some 0, tags := [], recurring := false,
    recurrence_pattern := "", parent_task := none }

/-- Store `s1` extended with `exTask`. -/
def s2 : Store := { s1 with nextId := 5, tasks := [exTask] }

/-- C3: deleting a `Category` removes no task: the task list keeps its
length, every task that referenced the deleted category survives with only
its category reference cleared, every other task survives unchanged, and
the category itself is gone. -/
theorem C3_delete_category_nullifies :
    ∀ (s : Store) (cid : Nat),
      (deleteCategory s cid).tasks.length = s.tasks.length ∧
      (∀ t ∈ s.tasks, t.category = some cid →
        { t with category := none } ∈ (deleteCategory s cid).tasks) ∧
      (∀ t ∈ s.tasks, t.category ≠ some cid →
        t ∈ (deleteCategory s cid).tasks) ∧
      (∀ c ∈ (deleteCategory s cid).categories, c.id ≠ cid) := by
  intro s cid
  refine ⟨?_, ?_, ?_, ?_⟩
  · simp [deleteCategory]
  · intro t ht hcat
    simp only [deleteCategory]
    exact List.mem_map.mpr ⟨t, ht, by simp [nullifyCategory, hcat]⟩
  · intro t ht hcat
    simp only [deleteCategory]
    exact List.mem_map.mpr ⟨t, ht, by simp [nullifyCategory, hcat]⟩
  · intro c hc
    simp only [deleteCategory] at hc
    have := (List.mem_filter.mp hc).2
    simpa using this

/-- Concrete instance of C3: deleting category 0 from `s2` keeps its one
task, with only the category reference cleared. -/
theorem C3_witness :
    { exTask with category := none } ∈ (deleteCategory s2 0).tasks ∧
    (deleteCategory s2 0).tasks.length = s2.tasks.length := by
  refine ⟨?_, (C3_delete_category_nullifies s2 0).1⟩
  exact (C3_delete_category_nullifies s2 0).2.1 exTask (by simp [s2]) (by decide)

/-- A parentless task (id 4 reused in a fresh store below). -/
def tA : TaskRec := { exTask with id := 4, category := none }

/-- A subtask of `tA`. -/
def tB : TaskRec := { exTask with id := 5, category := none, parent_task := some 4 }

/-- A subtask of `tB` (nested two levels below `tA`). -/
def tC : TaskRec := { exTask with id := 6, category := none, parent_task := some 5 }

/-- A store holding the chain `tA ← tB ← tC`. -/
def s3 : Store := { emptyStore with nextId := 7, tasks := [tA, tB, tC] }

/-- C4: deleting task `p` deletes every task whose `parent_task` chain
reaches `p`, through any depth of nesting: no surviving task has the id of
a chain member. -/
theorem C4_delete_task_cascades :
    ∀ (s : Store) (p : Nat) (t : TaskRec), t ∈ s.tasks →
      Reaches s.tasks p t.id →
      t.id ∉ (deleteTask s p).tasks.map TaskRec.id := by
  intro s p t ht hr hmem
  simp only [deleteTask] at hmem
  rcases List.mem_map.mp hmem with ⟨t', ht', hid⟩
  have hdoomed : t'.id ∈ cascadeCollect s.tasks [p] :=
    hid ▸ reaches_mem_cascadeCollect hr
  have hkeep := (List.mem_filter.mp ht').2
  have hcont : (cascadeCollect s.tasks [p]).contains t'.id = true :=
    List.elem_eq_true_of_mem hdoomed
  rw [hcont] at hkeep
  exact absurd hkeep (by simp)

/-- Concrete instance of C4: deleting task 4 from `s3` also deletes the
doubly-nested subtask 6. -/
theorem C4_witness : tC.id ∉ (deleteTask s3 4).tasks.map TaskRec.id := by
  refine C4_delete_task_cascades s3 4 tC (by simp [s3]) ?_
  exact Reaches.step tC 5 (by simp [s3]) rfl
    (Reaches.step tB 4 (by simp [s3]) rfl Reaches.refl)

/-- A task whose priority code violates the `choices` constraint is
flagged on the `priority` field. -/
theorem priority_invalid_flagged (t : TaskRec)
    (h : ¬(t.priority.length ≤ 1 ∧ isChoice PRIORITY_CHOICES t.priority = true)) :
    "priority" ∈ validateTask t := by
  simp [validateTask, if_neg h]

/-- C5: creating a `Task` with `priority="urgent"` — not one of the
enumerated codes `L`/`M`/`H` (labels low/medium/high) — fails with a
ValidationError identifying the `priority` field, whatever the other
arguments are. -/
theorem C5_priority_urgent_rejected :
    ∀ (s : Store) (a : TaskArgs),
      "priority" ∈ validateTask (buildTask s { a with priority := some "urgent" }) ∧
      createTask s { a with priority := some "urgent" } =
        .error (.validation
          (validateTask (buildTask s { a with priority := some "urgent" }))) := by
  intro s a
  have hp : (buildTask s { a with priority := some "urgent" }).priority = "urgent" := rfl
  have hbad : ¬((buildTask s { a with priority := some "urgent" }).priority.length ≤ 1 ∧
      isChoice PRIORITY_CHOICES (buildTask s { a with priority := some "urgent" }).priority = true) := by
    rw [hp]; decide
  have hmem := priority_invalid_flagged _ hbad
  refine ⟨hmem, ?_⟩
  have hne : validateTask (buildTask s { a with priority := some "urgent" }) ≠ [] :=
    List.ne_nil_of_mem hmem
  simp only [createTask]
  rw [if_neg hne]

/-- C6: for every entity type, a successful create followed by a read by
the returned identifier yields exactly the stored record — the
caller-supplied values with omitted fields filled by their declared
defaults; in particular `Task.status` defaults to `'P'` (pending),
`Note.color` to `"#FFFFFF"` and `PomodoroSession.duration` to `25`. -/
theorem C6_create_read_roundtrip :
    (∀ (s : Store) (a : CategoryArgs) (s' : Store) (n : Nat),
      createCategory s a = .ok (s', n) →
      getCategory s' n = some (buildCategory s a)) ∧
    (∀ (s : Store) (a : TagArgs) (s' : Store) (n : Nat),
      createTag s a = .ok (s', n) → getTag s' n = some (buildTag s a)) ∧
    (∀ (s : Store) (a : TaskArgs) (s' : Store) (n : Nat),
      createTask s a = .ok (s', n) → getTask s' n = some (buildTask s a)) ∧
    (∀ (s : Store) (a : NoteArgs) (s' : Store) (n : Nat),
      createNote s a = .ok (s', n) → getNote s' n = some (buildNote s a)) ∧
    (∀ (s : Store) (a : PomodoroArgs) (s' : Store) (n : Nat),
      createPomodoro s a = .ok (s', n) →
      getPomodoro s' n = some (buildPomodoro s a)) ∧
    (∀ (s : Store) (a : RewardArgs) (s' : Store) (n : Nat),
      createReward s a = .ok (s', n) → getReward s' n = some (buildReward s a)) ∧
    (∀ (s : Store) (a : QuoteArgs) (s' : Store) (n : Nat),
      createQuote s a = .ok (s', n) → getQuote s' n = some (buildQuote s a)) ∧
    (∀ (s : Store) (a : BreathingArgs) (s' : Store) (n : Nat),
      createBreathing s a = .ok (s', n) →
      getBreathing s' n = some (buildBreathing s a)) ∧
    (∀ (s : Store) (a : MoodEntryArgs) (s' : Store) (n : Nat),
      createMoodEntry s a = .ok (s', n) →
      getMoodEntry s' n = some (buildMoodEntry s a)) ∧
    (∀ (s : Store) (a : TaskArgs), a.status = none →
      (buildTask s a).status = "P") ∧
    (∀ (s : Store) (a : NoteArgs), a.color = none →
      (buildNote s a).color = "#FFFFFF") ∧
    (∀ (s : Store) (a : PomodoroArgs), a.duration = none →
      (buildPomodoro s a).duration = 25) := by
  refine ⟨?_, ?_, ?_, ?_, ?_, ?_, ?_, ?_, ?_, ?_, ?_, ?_⟩
  · intro s a s' n h
    simp only [createCategory] at h
    split at h
    · split at h
      · exact Except.noConfusion h
      · simp only [Except.ok.injEq, Prod.mk.injEq] at h
        obtain ⟨rfl, rfl⟩ := h
        simp only [getCategory]
        rw [List.find?_cons_of_pos _ (by simp)]
    · exact Except.noConfusion h
  · intro s a s' n h
    simp only [createTag] at h
    split at h
    · split at h
      · exact Except.noConfusion h
      · simp only [Except.ok.injEq, Prod.mk.injEq] at h
        obtain ⟨rfl, rfl⟩ := h
        simp only [getTag]
        rw [List.find?_cons_of_pos _ (by simp)]
    · exact Except.noConfusion h
  · intro s a s' n h
    simp only [createTask] at h
    split at h
    · simp only [Except.ok.injEq, Prod.mk.injEq] at h
      obtain ⟨rfl, rfl⟩ := h
      simp only [getTask]
      rw [List.find?_cons_of_pos _ (by simp)]
    · exact Except.noConfusion h
  · intro s a s' n h
    simp only [createNote] at h
    split at h
    · simp only [Except.ok.injEq, Prod.mk.injEq] at h
      obtain ⟨rfl, rfl⟩ := h
      simp only [getNote]
      rw [List.find?_cons_of_pos _ (by simp)]
    · exact Except.noConfusion h
  · intro s a s' n h
    simp only [createPomodoro] at h
    split at h
    · simp only [Except.ok.injEq, Prod.mk.injEq] at h
      obtain ⟨rfl, rfl⟩ := h
      simp only [getPomodoro]
      rw [List.find?_cons_of_pos _ (by simp)]
    · exact Except.noConfusion h
  · intro s a s' n h
    simp only [createReward] at h
    split at h
    · simp only [Except.ok.injEq, Prod.mk.injEq] at h
      obtain ⟨rfl, rfl⟩ := h
      simp only [getReward]
      rw [List.find?_cons_of_pos _ (by simp)]
    · exact Except.noConfusion h
  · intro s a s' n h
    simp only [createQuote] at h
    split at h
    · split at h
      · exact Except.noConfusion h
      · simp only [Except.ok.injEq, Prod.mk.injEq] at h
        obtain ⟨rfl, rfl⟩ := h
        simp only [getQuote]
        rw [List.find?_cons_of_pos _ (by simp)]
    · exact Except.noConfusion h
  · intro s a s' n h
    simp only [createBreathing] at h
    split at h
    · simp only [Except.ok.injEq, Prod.mk.injEq] at h
      obtain ⟨rfl, rfl⟩ := h
      simp only [getBreathing]
      rw [List.find?_cons_of_pos _ (by simp)]
    · exact Except.noConfusion h
  · intro s a s' n h
    simp only [createMoodEntry] at h
    split at h
    · split at h
      · exact Except.noConfusion h
      · simp only [Except.ok.injEq, Prod.mk.injEq] at h
        obtain ⟨rfl, rfl⟩ := h
        simp only [getMoodEntry]
        rw [List.find?_cons_of_pos _ (by simp)]
    · exact Except.noConfusion h
  · intro s a h
    simp [buildTask, h]
  · intro s a h
    simp [buildNote, h]
  · intro s a h
    simp [buildPomodoro, h]

/-- Create arguments used by the round-trip witness. -/
def aCat : CategoryArgs :=
  { user := 1, name := "home", color := none, description := "", icon := "" }

/-- Tag create arguments for the round-trip witness. -/
def aTag : TagArgs := { user := 1, name := "errand", color := none }

/-- Task create arguments (all defaultable fields omitted). -/
def aTask : TaskArgs :=
  { user := 1, title := "plan", description := "", priority := none,
    status := none, due_date := none, estimated_time := none,
    is_break_task := none, category := none, tags := [], recurring := none,
    recurrence_pattern := "", parent_task := none }

/-- Note create arguments (color omitted). -/
def aNote : NoteArgs :=
  { user := 1, title := "idea", content := "text", is_pinned := none,
    color := none }

/-- Pomodoro create arguments (duration omitted). -/
def aPom : PomodoroArgs :=
  { user := 1, end_time := none, duration := none, is_completed := none,
    task := none }

/-- Reward create arguments. -/
def aRew : RewardArgs :=
  { user := 1, name := "tea", description := "", points_required := none,
    is_claimed := none }

/-- Daily-quote create arguments. -/
def aQuo : QuoteArgs :=
  { quote := "carpe diem", author := "", date := 3, is_active := none }

/-- Breathing-exercise create arguments. -/
def aBre : BreathingArgs :=
  { name := "box", description := "d", duration := 4, steps := "s",
    difficulty := none, image_url := "" }

/-- Mood-entry create arguments. -/
def aMoo : MoodEntryArgs :=
  { user := 1, date := none, mood := "2", notes := "", energy_level := 6,
    sleep_hours := none, activities := "" }

/-- Store produced by creating `aCat` in the empty store. -/
def sCat : Store :=
  { emptyStore with nextId := 1, categories := [buildCategory emptyStore aCat] }

/-- Store produced by creating `aTag` in the empty store. -/
def sTag : Store :=
  { emptyStore with nextId := 1, tags := [buildTag emptyStore aTag] }

/-- Store produced by creating `aTask` in the empty store. -/
def sTask : Store :=
  { emptyStore with nextId := 1, tasks := [buildTask emptyStore aTask] }

/-- Store produced by creating `aNote` in the empty store. -/
def sNote : Store :=
  { emptyStore with nextId := 1, notes := [buildNote emptyStore aNote] }

/-- Store produced by creating `aPom` in the empty store. -/
def sPom : Store :=
  { emptyStore with nextId := 1, pomodoros := [buildPomodoro emptyStore aPom] }

/-- Store produced by creating `aRew` in the empty store. -/
def sRew : Store :=
  { emptyStore with nextId := 1, rewards := [buildReward emptyStore aRew] }

/-- Store produced by creating `aQuo` in the empty store. -/
def sQuo : Store :=
  { emptyStore with nextId := 1, quotes := [buildQuote emptyStore aQuo] }

/-- Store produced by creating `aBre` in the empty store. -/
def sBre : Store :=
  { emptyStore with nextId := 1, breathings := [buildBreathing emptyStore aBre] }

/-- Store produced by creating `aMoo` in the empty store. -/
def sMoo : Store :=
  { emptyStore with nextId := 1, moodEntries := [buildMoodEntry emptyStore aMoo] }

/-- Concrete instance of C6: each entity created in the empty store reads
back as exactly the built record, and the three named defaults are
applied. -/
theorem C6_witness :
    getCategory sCat 0 = some (buildCategory emptyStore aCat) ∧
    getTag sTag 0 = some (buildTag emptyStore aTag) ∧
    getTask sTask 0 = some (buildTask emptyStore aTask) ∧
    getNote sNote 0 = some (buildNote emptyStore aNote) ∧
    getPomodoro sPom 0 = some (buildPomodoro emptyStore aPom) ∧
    getReward sRew 0 = some (buildReward emptyStore aRew) ∧
    getQuote sQuo 0 = some (buildQuote emptyStore aQuo) ∧
    getBreathing sBre 0 = some (buildBreathing emptyStore aBre) ∧
    getMoodEntry sMoo 0 = some (buildMoodEntry emptyStore aMoo) ∧
    (buildTask emptyStore aTask).status = "P" ∧
    (buildNote emptyStore aNote).color = "#FFFFFF" ∧
    (buildPomodoro emptyStore aPom).duration = 25 := by
  refine ⟨?_, ?_, ?_, ?_, ?_, ?_, ?_, ?_, ?_, ?_, ?_, ?_⟩
  · exact C6_create_read_roundtrip.1 emptyStore aCat sCat 0 (by rfl)
  · exact C6_create_read_roundtrip.2.1 emptyStore aTag sTag 0 (by rfl)
  · exact C6_create_read_roundtrip.2.2.1 emptyStore aTask sTask 0 (by rfl)
  · exact C6_create_read_roundtrip.2.2.2.1 emptyStore aNote sNote 0 (by rfl)
  · exact C6_create_read_roundtrip.2.2.2.2.1 emptyStore aPom sPom 0 (by rfl)
  · exact C6_create_read_roundtrip.2.2.2.2.2.1 emptyStore aRew sRew 0 (by rfl)
  · exact C6_create_read_roundtrip.2.2.2.2.2.2.1 emptyStore aQuo sQuo 0 (by rfl)
  · exact C6_create_read_roundtrip.2.2.2.2.2.2.2.1 emptyStore aBre sBre 0 (by rfl)
  · exact C6_create_read_roundtrip.2.2.2.2.2.2.2.2.1 emptyStore aMoo sMoo 0 (by rfl)
  · exact C6_create_read_roundtrip.2.2.2.2.2.2.2.2.2.1 emptyStore aTask rfl
  · exact C6_create_read_roundtrip.2.2.2.2.2.2.2.2.2.2.1 emptyStore aNote rfl
  · exact C6_create_read_roundtrip.2.2.2.2.2.2.2.2.2.2.2 emptyStore aPom rfl

/-- Rewrite each task's `recurrence_pattern` (chosen by task id), leaving
every other field unchanged: two stores differing only in recurrence
patterns are related by mapping `setPattern`. -/
def setPattern (g : Nat → String) (t : TaskRec) : TaskRec :=
  { t with recurrence_pattern := g t.id }

/-- Cascade collection never looks at `recurrence_pattern`: rewriting the
patterns of all tasks leaves the doomed id set unchanged. -/
theorem cascadeCollect_setPattern (g : Nat → String) :
    ∀ (tasks : List TaskRec) (acc : List Nat),
      cascadeCollect (tasks.map (setPattern g)) acc = cascadeCollect tasks acc := by
  intro tasks acc
  have hfil1 : (tasks.map (setPattern g)).filter (taskParentHit acc)
      = (tasks.filter (taskParentHit acc)).map (setPattern g) := by
    rw [List.filter_map (setPattern g) tasks]
    congr 1
  have hfil2 : (tasks.map (setPattern g)).filter (fun t => !(taskParentHit acc t))
      = (tasks.filter (fun t => !(taskParentHit acc t))).map (setPattern g) := by
    rw [List.filter_map (setPattern g) tasks]
    congr 1
  have hcond : ∀ l : List TaskRec,
      ((l.map (setPattern g)).isEmpty) = l.isEmpty := by
    intro l; cases l <;> simp
  have hids : ∀ l : List TaskRec,
      (l.map (setPattern g)).map TaskRec.id = l.map TaskRec.id := by
    intro l; simp [List.map_map, Function.comp, setPattern]
  conv_lhs => rw [cascadeCollect]
  rw [hfil1, hfil2, hcond, hids]
  conv_rhs => rw [cascadeCollect]
  by_cases hemp : (tasks.filter (taskParentHit acc)).isEmpty = true
  · rw [if_pos hemp, if_pos hemp]
  · rw [if_neg hemp, if_neg hemp]
    exact cascadeCollect_setPattern g (tasks.filter (fun t => !(taskParentHit acc t)))
      (acc ++ (tasks.filter (taskParentHit acc)).map TaskRec.id)
termination_by tasks => tasks.length
decreasing_by
  exact filter_not_hit_length_lt tasks acc hemp

/-- C7: `recurrence_pattern` is inert ("ignored") for every operation of
the schema: a write may store any pattern on a task regardless of
`recurring` (the field carries only its `max_length=100` constraint, so
validation is unchanged by swapping one stored pattern for another), and
neither cascade collection nor task/category deletion behaves differently
when every task's pattern is rewritten — the stored pattern influences no
operation's outcome, it is only stored and returned. -/
theorem C7_recurrence_pattern_inert :
    (∀ (t : TaskRec) (p : String), p.length ≤ 100 →
      t.recurrence_pattern.length ≤ 100 →
      validateTask { t with recurrence_pattern := p } = validateTask t) ∧
    (∀ (g : Nat → String) (tasks : List TaskRec) (acc : List Nat),
      cascadeCollect (tasks.map (setPattern g)) acc = cascadeCollect tasks acc) ∧
    (∀ (g : Nat → String) (s : Store) (p : Nat),
      deleteTask { s with tasks := s.tasks.map (setPattern g) } p =
        { deleteTask s p with tasks := (deleteTask s p).tasks.map (setPattern g) }) ∧
    (∀ (g : Nat → String) (s : Store) (cid : Nat),
      deleteCategory { s with tasks := s.tasks.map (setPattern g) } cid =
        { deleteCategory s cid with
          tasks := (deleteCategory s cid).tasks.map (setPattern g) }) := by
  refine ⟨?_, cascadeCollect_setPattern, ?_, ?_⟩
  · intro t p h1 h2
    simp [validateTask, h1, h2]
  · intro g s p
    simp only [deleteTask]
    rw [cascadeCollect_setPattern]
    congr 1
    rw [List.filter_map]
    congr 1
  · intro g s cid
    simp only [deleteCategory]
    congr 1
    rw [List.map_map, List.map_map]
    have hcomm : (nullifyCategory cid ∘ setPattern g) =
        (setPattern g ∘ nullifyCategory cid) := by
      funext t
      by_cases h : t.category = some cid <;>
        simp [Function.comp, nullifyCategory, setPattern, h]
    rw [hcomm]

/-- Concrete instance of C7: swapping the stored pattern "weekly" onto the
non-recurring `exTask` leaves its validation verdict unchanged. -/
theorem C7_witness :
    validateTask { exTask with recurrence_pattern := "weekly" } = validateTask exTask :=
  C7_recurrence_pattern_inert.1 exTask "weekly" (by decide) (by decide)

/-- C8: reading an account's `MoodEntry` collection without an explicit
ordering applies the model's declared default ordering `['-date']`: the
result is exactly the account's entries (a permutation of them), sorted by
date in descending order — most recent first. -/
theorem C8_mood_entries_date_descending :
    ∀ (s : Store) (u : Nat),
      (getMoodEntries s u).Sorted (fun a b => b.date ≤ a.date) ∧
      (getMoodEntries s u).Perm (s.moodEntries.filter (fun m => m.user == u)) := by
  intro s u
  exact ⟨List.sorted_insertionSort moodOrder _, List.perm_insertionSort moodOrder _⟩

/-- C9: in the stored mood scale, code `'1'` carries the label
`'😊 Very Happy'` and code `'5'` carries `'😢 Very Sad'` — the scale runs
happiest at 1 to saddest at 5, not the reverse; and `mood` is required
with no default: an empty mood is rejected (flagged on `mood`), and the
stored mood is always exactly the caller-supplied one. -/
theorem C9_mood_scale_semantics :
    choiceLabel MOOD_CHOICES "1" = some "😊 Very Happy" ∧
    choiceLabel MOOD_CHOICES "5" = some "😢 Very Sad" ∧
    ("😊 Very Happy").data.drop 2 = ("Very Happy").data ∧
    ("😢 Very Sad").data.drop 2 = ("Very Sad").data ∧
    (∀ m : MoodEntryRec, m.mood = "" → "mood" ∈ validateMoodEntry m) ∧
    (∀ (s : Store) (a : MoodEntryArgs), (buildMoodEntry s a).mood = a.mood) := by
  refine ⟨by decide, by decide, by decide, by decide, ?_, fun s a => rfl⟩
  intro m h
  have hbad : ¬(m.mood.length ≤ 1 ∧ isChoice MOOD_CHOICES m.mood = true) := by
    rw [h]; decide
  simp [validateMoodEntry, if_neg hbad]

/-- Concrete instance of C9: an empty mood on `exMood` is flagged on the
`mood` field. -/
theorem C9_witness : "mood" ∈ validateMoodEntry { exMood with mood := "" } :=
  C9_mood_scale_semantics.2.2.2.2.1 _ rfl

/-- C10: `Note.color` is constrained only by `max_length=7`, with no
`choices` restriction (unlike Category/Tag colors): any color of length at
most 7 — e.g. the non-hex `"zzzzzzz"` — passes, and a create with it
succeeds when the title is valid, while any color of length 8 or more is
flagged on `color` and the create fails. -/
theorem C10_note_color_length_only :
    (∀ n : NoteRec, n.color.length ≤ 7 → "color" ∉ validateNote n) ∧
    (∀ n : NoteRec, 8 ≤ n.color.length → "color" ∈ validateNote n) ∧
    (∀ (s : Store) (a : NoteArgs), a.title.length ≤ 200 →
      createNote s { a with color := some "zzzzzzz" } =
        .ok ({ s with
               nextId := s.nextId + 1,
               notes := buildNote s { a with color := some "zzzzzzz" } :: s.notes },
             s.nextId)) ∧
    (∀ (s : Store) (a : NoteArgs),
      "color" ∈ validateNote (buildNote s { a with color := some "zzzzzzzz" }) ∧
      createNote s { a with color := some "zzzzzzzz" } =
        .error (.validation
          (validateNote (buildNote s { a with color := some "zzzzzzzz" })))) := by
  have hlong : ∀ n : NoteRec, 8 ≤ n.color.length → "color" ∈ validateNote n := by
    intro n h
    have hbad : ¬ n.color.length ≤ 7 := by omega
    simp [validateNote, if_neg hbad]
  refine ⟨?_, hlong, ?_, ?_⟩
  · intro n h hmem
    simp only [validateNote, if_pos h, List.append_nil] at hmem
    revert hmem
    split <;> simp
  · intro s a htitle
    have htit : (buildNote s { a with color := some "zzzzzzz" }).title.length ≤ 200 := htitle
    have hcol : (buildNote s { a with color := some "zzzzzzz" }).color.length ≤ 7 := by
      show ("zzzzzzz" : String).length ≤ 7
      decide
    have hval : validateNote (buildNote s { a with color := some "zzzzzzz" }) = [] := by
      simp [validateNote, if_pos htit, if_pos hcol]
    simp only [createNote]
    rw [if_pos hval]
    rfl
  · intro s a
    have hmem : "color" ∈ validateNote (buildNote s { a with color := some "zzzzzzzz" }) := by
      apply hlong
      show 8 ≤ ("zzzzzzzz" : String).length
      decide
    refine ⟨hmem, ?_⟩
    simp only [createNote]
    rw [if_neg (List.ne_nil_of_mem hmem)]

/-- Concrete instance of C10: on `aNote`, the 7-character color
`"zzzzzzz"` is accepted (its create succeeds) and the 8-character color
`"zzzzzzzz"` is flagged on `color`. -/
theorem C10_witness :
    createNote emptyStore { aNote with color := some "zzzzzzz" } =
      .ok ({ emptyStore with
             nextId := emptyStore.nextId + 1,
             notes := buildNote emptyStore { aNote with color := some "zzzzzzz" }
               :: emptyStore.notes },
           emptyStore.nextId) ∧
    "color" ∈ validateNote (buildNote emptyStore { aNote with color := some "zzzzzzzz" }) ∧
    "color" ∉ validateNote (buildNote emptyStore aNote) := by
  refine ⟨?_, ?_, ?_⟩
  · exact C10_note_color_length_only.2.2.1 emptyStore aNote (by decide)
  · exact (C10_note_color_length_only.2.2.2 emptyStore aNote).1
  · exact C10_note_color_length_only.1 _ (by decide)
